import Mathlib

/-!
Verification of the VibeCharts chart renderer (src/assets/js/VibeCharts.js).

The renderer is embedded shallowly: each JavaScript helper becomes a Lean
function over explicit data (rationals for chart values, strings for tags
and colors, lists for series).  JavaScript truthiness is modelled exactly
where the source relies on it: the expression a || b is translated as
"b when a is falsy (0, empty string, undefined), a otherwise".
-/

namespace VibeCharts

/-- A series entry: either a bare number or a record with an optional label
and a numeric value field (data model of the source, which tolerates mixed
bare-number and record entries in one series). -/
inductive Entry where
  | bare (n : ℚ)
  | record (label : Option String) (value : ℚ)
deriving DecidableEq, Repr

/-- A JavaScript value as observed in the drawing routines: a number, a
raw entry object, or some other non-numeric value (for example the string
produced by adding a number to an object). -/
inductive JsVal where
  | num (q : ℚ)
  | obj (e : Entry)
  | nonNum
deriving DecidableEq, Repr

/-- Embedding of the expression item.value || item used by drawBar
(line 332), drawWaterfall (line 708) and the other drawing routines: for a
record the value field is used unless it is falsy (0), in which case the
record object itself is returned; a bare number has no value field
(undefined, falsy), so the number itself is returned. -/
def entryValue : Entry → JsVal
  | .bare n => .num n
  | .record l v => if v = 0 then .obj (.record l v) else .num v

/-- The numeric value field of an entry (the value a record carries, or
the bare number itself); used to state what the spec calls the entry input
value. -/
def entryNumber : Entry → ℚ
  | .bare n => n
  | .record _ v => v

/-- JavaScript n || d for a possibly-undefined number n: undefined and 0
are falsy, so both fall back to d. -/
def jsOrNat (v : Option ℕ) (d : ℕ) : ℕ :=
  match v with
  | some n => if n = 0 then d else n
  | none => d

/-- JavaScript s || d for a possibly-undefined string s: undefined and the
empty string are falsy, so both fall back to d. -/
def jsOrStr (v : Option String) (d : String) : String :=
  match v with
  | some s => if s = "" then d else s
  | none => d

/-- The corner-radius lookup table of getRadius (line 294):
sharp 0, default 4, soft 18, rounded 51. -/
def radii : List (String × ℕ) :=
  [("sharp", 0), ("default", 4), ("soft", 18), ("rounded", 51)]

/-- getRadius (lines 293-296): radii[style] || 4.  The || fallback treats
the looked-up value 0 (style sharp) the same as an unknown style, because
0 is falsy in JavaScript. -/
def getRadius (style : String) : ℕ :=
  jsOrNat (radii.lookup style) 4

/-- An RGB triple with integer channels (the result shape of hexToRgb and
adjustBrightness). -/
structure RGB where
  r : ℤ
  g : ℤ
  b : ℤ
deriving DecidableEq, Repr

/-- Character class [a-f\d] of the hexToRgb regular expression, with the i
flag: decimal digits and the letters a-f in either case. -/
def isHexDigit (c : Char) : Bool :=
  decide ((48 ≤ c.toNat ∧ c.toNat ≤ 57) ∨ (97 ≤ c.toNat ∧ c.toNat ≤ 102) ∨
    (65 ≤ c.toNat ∧ c.toNat ≤ 70))

/-- Value of one hex digit as parseInt with radix 16 reads it; non-digits
map to 0 (they are rejected by the regular expression before parsing). -/
def hexVal (c : Char) : ℕ :=
  if 48 ≤ c.toNat ∧ c.toNat ≤ 57 then c.toNat - 48
  else if 97 ≤ c.toNat ∧ c.toNat ≤ 102 then c.toNat - 87
  else if 65 ≤ c.toNat ∧ c.toNat ≤ 70 then c.toNat - 55
  else 0

/-- The optional leading # of the hexToRgb regular expression: at most one
hash is stripped from the front. -/
def stripHash : List Char → List Char
  | '#' :: rest => rest
  | cs => cs

/-- Body of the hexToRgb regular expression after the optional hash:
exactly six hex digits grouped in pairs, each pair parsed with radix 16
(lines 788-795). -/
def parseBody (cs : List Char) : Option RGB :=
  if cs.length = 6 ∧ cs.all isHexDigit then
    some ⟨(16 * hexVal (cs.getD 0 ' ') + hexVal (cs.getD 1 ' ') : ℕ),
          (16 * hexVal (cs.getD 2 ' ') + hexVal (cs.getD 3 ' ') : ℕ),
          (16 * hexVal (cs.getD 4 ' ') + hexVal (cs.getD 5 ' ') : ℕ)⟩
  else none

/-- hexToRgb (lines 788-795): parse an optional # and six hex digits into
an RGB triple; any non-matching input yields black. -/
def hexToRgb (s : String) : RGB :=
  (parseBody (stripHash s.data)).getD ⟨0, 0, 0⟩

/-- Canonical lower-case hex digit for a value below 16 (auxiliary encoder
used to state the round-trip property; the source itself has no RGB-to-hex
function). -/
def toHexChar (d : ℕ) : Char :=
  if d < 10 then Char.ofNat (48 + d) else Char.ofNat (87 + d)

/-- Two-digit hex encoding of a channel value (auxiliary encoder for the
round-trip property). -/
def toHexPair (n : ℕ) : List Char :=
  [toHexChar (n / 16), toHexChar (n % 16)]

/-- Canonical #-prefixed 6-digit hex encoding of an RGB triple (auxiliary
encoder for the round-trip property). -/
def rgbToHex (c : RGB) : String :=
  String.mk ('#' :: (toHexPair c.r.toNat ++ toHexPair c.g.toNat ++ toHexPair c.b.toNat))

/-- JavaScript Math.round: floor of x + 1/2. -/
def jsRound (q : ℚ) : ℤ := ⌊q + 1 / 2⌋

/-- Math.min(255, Math.max(0, x)) as used by adjustBrightness. -/
def clamp255 (n : ℤ) : ℤ := min 255 (max 0 n)

/-- adjustBrightness (lines 285-291): parse the color, scale each channel
by the factor, round, and clamp to [0, 255]. -/
def adjustBrightness (color : String) (factor : ℚ) : RGB :=
  let rgb := hexToRgb color
  ⟨clamp255 (jsRound ((rgb.r : ℚ) * factor)),
   clamp255 (jsRound ((rgb.g : ℚ) * factor)),
   clamp255 (jsRound ((rgb.b : ℚ) * factor))⟩

/-- A color value as returned by getColor: either a palette string or the
rgb(r,g,b) triple produced by adjustBrightness. -/
inductive JsColor where
  | str (s : String)
  | rgbVal (c : RGB)
deriving DecidableEq, Repr

/-- getColor (lines 272-283).  Mode individual indexes the palette by
index modulo length; mode shade scales the first palette color by
1 - index * 0.15; every other mode takes the final return, which is the
same palette indexing as individual.  Indexing an empty palette yields
undefined (none); colors[0] of an empty palette is undefined, whose parse
is black, modelled by headI giving the empty string. -/
def getColor (colors : List String) (i : ℕ) (mode : String) : Option JsColor :=
  if mode = "individual" then
    (colors.get? (i % colors.length)).map .str
  else if mode = "shade" then
    some (.rgbVal (adjustBrightness colors.headI (1 - (i : ℚ) * (15 / 100))))
  else
    (colors.get? (i % colors.length)).map .str

/-- A resolved theme: background, text and grid colors (one row of the
theme table in applyTheme, lines 139-144). -/
structure ThemeColors where
  backgroundColor : String
  textColor : String
  gridColor : String
deriving DecidableEq, Repr

/-- The built-in theme table of applyTheme (lines 139-144). -/
def themeTable (t : String) : Option ThemeColors :=
  if t = "lite" then some ⟨"#ffffff", "#333333", "#e0e0e0"⟩
  else if t = "dark" then some ⟨"#1a1a2e", "#eee", "#2a2a3e"⟩
  else if t = "gradient" then
    some ⟨"linear-gradient(135deg, #667eea 0%, #764ba2 100%)", "#ffffff", "rgba(255,255,255,0.1)"⟩
  else if t = "glass" then some ⟨"rgba(255, 255, 255, 0.1)", "#333333", "rgba(0,0,0,0.05)"⟩
  else none

/-- A caller-supplied custom theme: any of the three colors may be absent. -/
structure CustomTheme where
  backgroundColor : Option String
  textColor : Option String
  gridColor : Option String
deriving DecidableEq, Repr

/-- The slice of the options record that theme resolution reads and
writes.  gridColor is none until applyTheme first sets it (the
constructor defaults carry no gridColor). -/
structure Options where
  theme : String
  backgroundColor : String
  textColor : String
  gridColor : Option String
  customTheme : Option CustomTheme
deriving DecidableEq, Repr

/-- The constructor defaults for the theme-relevant options (lines 22-53):
theme dark, backgroundColor #ffffff, textColor #333333, no customTheme. -/
def defaultOptions : Options :=
  { theme := "dark"
    backgroundColor := "#ffffff"
    textColor := "#333333"
    gridColor := none
    customTheme := none }

/-- applyTheme (lines 138-162).  A custom theme short-circuits, filling
each color with the custom value when present and truthy.  Otherwise the
theme table is consulted (unknown tags fall back to dark), and background
and text colors are replaced only when still falsy or equal to the
built-in defaults #ffffff and #333333; the grid color is always taken from
the table. -/
def applyTheme (o : Options) : Options :=
  match o.customTheme with
  | some ct =>
    { o with
      backgroundColor := jsOrStr ct.backgroundColor o.backgroundColor
      textColor := jsOrStr ct.textColor o.textColor
      gridColor := some (jsOrStr ct.gridColor "rgba(128, 128, 128, 0.2)") }
  | none =>
    let th := (themeTable o.theme).getD ⟨"#1a1a2e", "#eee", "#2a2a3e"⟩
    { o with
      backgroundColor :=
        if o.backgroundColor = "" ∨ o.backgroundColor = "#ffffff" then th.backgroundColor
        else o.backgroundColor
      textColor :=
        if o.textColor = "" ∨ o.textColor = "#333333" then th.textColor
        else o.textColor
      gridColor := some th.gridColor }

/-- updateOptions (lines 797-800) with a new theme tag: the new options
are merged over the old ones and init reruns applyTheme on the merged
record. -/
def updateTheme (o : Options) (t : String) : Options :=
  applyTheme { o with theme := t }

/-- The constructor (lines 16-20): document.getElementById succeeds
exactly when the container id is present in the document; otherwise the
constructor throws.  The document is modelled as the list of element ids
it contains. -/
def construct (containerId : String) (documentIds : List String) : Except String Unit :=
  if containerId ∈ documentIds then Except.ok ()
  else Except.error ("Container with id \"" ++ containerId ++ "\" not found")

/-- The methods defined on the VibeCharts class, in source order.  Note
that drawExternalLegend is absent: render (line 235) calls it, but only
drawLegend (lines 759-777) is defined. -/
def classMethods : List String :=
  ["constructor", "showPlaceholder", "hidePlaceholder", "setupResponsive", "init",
   "applyTheme", "createCanvas", "loadData", "render", "clear", "drawTitle", "drawGrid",
   "getColor", "adjustBrightness", "getRadius", "drawRoundedRect", "applyGradient",
   "drawBar", "drawHorizontalBar", "drawLine", "drawArea", "drawPie", "drawDonut",
   "drawRadar", "drawGauge", "drawHeatmap", "drawWaterfall", "drawScatter", "drawBubble",
   "drawPolar", "drawTreemap", "drawLegend", "interpolateColor", "hexToRgb",
   "updateOptions", "destroy"]

/-- The keys of the chart-type dispatch table in render (lines 209-224). -/
def chartTypeNames : List String :=
  ["bar", "horizontalBar", "line", "area", "pie", "donut", "scatter", "bubble",
   "radar", "polar", "heatmap", "treemap", "gauge", "waterfall"]

/-- render (lines 204-237), at the level of control flow that can raise:
the chart-type dispatch silently skips unknown tags and the drawing
routines themselves only do arithmetic and canvas calls (no throw), but
when showLegend is set and the data is non-empty render invokes
this.drawExternalLegend(), which must exist on the class or a TypeError
is raised.  The ok value records whether a chart routine was dispatched
(unknown type tags are silently skipped). -/
def render (typeTag : String) (showLegend : Bool) (dataLen : ℕ) : Except String Bool :=
  let dispatched := chartTypeNames.contains typeTag
  if showLegend ∧ 0 < dataLen then
    if "drawExternalLegend" ∈ classMethods then Except.ok dispatched
    else Except.error "TypeError: this.drawExternalLegend is not a function"
  else Except.ok dispatched

/-- The values array of drawWaterfall (line 708): data.map of the
item.value || item extraction. -/
def waterfallValues (data : List Entry) : List JsVal :=
  data.map entryValue

/-- The cumulative array of drawWaterfall (lines 709-712): a reduce that
appends the first value as-is and thereafter the previous accumulated
entry plus the current value. -/
def cumulative (values : List ℚ) : List ℚ :=
  values.foldl (fun acc val => acc ++ [acc.getLast?.elim val (· + val)]) []

/-- minValue of drawWaterfall (line 714): Math.min over the cumulative
values and the extra argument 0. -/
def waterfallMin (values : List ℚ) : ℚ :=
  (cumulative values).foldl min 0

/-- maxValue of drawWaterfall (line 713): Math.max over the cumulative
values (for an empty list Math.max() is negative infinity; that case is
outside every claim and is given the junk value 0 here). -/
def waterfallMax (values : List ℚ) : ℚ :=
  match cumulative values with
  | [] => 0
  | c :: cs => cs.foldl max c

/-- Reference form of the cumulative array: each element extends a running
total that starts at the given base (used to reason about the foldl in
cumulative). -/
def cumulFrom (base : ℚ) : List ℚ → List ℚ
  | [] => []
  | v :: vs => (base + v) :: cumulFrom (base + v) vs

/-- JavaScript + as used by the reduce in drawDonut: two numbers add;
adding anything else (an entry object) produces a string, a non-numeric
value. -/
def jsAdd : JsVal → JsVal → JsVal
  | .num a, .num b => .num (a + b)
  | _, _ => .nonNum

/-- The total of drawDonut (line 551): reduce of sum + (item.value ||
item) with initial value 0. -/
def donutTotal (data : List Entry) : JsVal :=
  data.foldl (fun s e => jsAdd s (entryValue e)) (.num 0)

/-- The donut center label (line 572): fillText draws the total at the
center. -/
def donutCenterLabel (data : List Entry) : JsVal :=
  donutTotal data

/-! Theorems. -/

/-- Claim C1 (code evaluation at the failing input): the radius table in
getRadius itself maps sharp to 0, but getRadius returns 4 for the sharp
style because the || 4 fallback treats the looked-up 0 as falsy; the
remaining tags map as the claim states. -/
theorem c1_getRadius_sharp_is_four :
    radii.lookup "sharp" = some 0 ∧ getRadius "sharp" = 4 ∧ getRadius "sharp" ≠ 0 ∧
    getRadius "default" = 4 ∧ getRadius "soft" = 18 ∧ getRadius "rounded" = 51 ∧
    getRadius "bogus" = 4 := by
  decide

/-- Claim C2 (code evaluation at the failing input): with the default
showLegend setting and one data entry, render raises a TypeError, because
the legend step calls drawExternalLegend, which is not a method of the
class; only the never-called drawLegend is.  With the legend disabled or
the data empty, render completes for every type tag, dispatching known
tags and silently skipping unknown ones. -/
theorem c2_render_legend_crash :
    render "bar" true 1 = Except.error "TypeError: this.drawExternalLegend is not a function" ∧
    "drawExternalLegend" ∉ classMethods ∧ "drawLegend" ∈ classMethods ∧
    (∀ t dl, render t false dl = Except.ok (chartTypeNames.contains t)) ∧
    (∀ t sl, render t sl 0 = Except.ok (chartTypeNames.contains t)) := by
  refine ⟨rfl, by decide, by decide, fun t dl => ?_, fun t sl => ?_⟩
  · simp [render]
  · simp [render]

/-- Claim C3 (counterexample): a record entry with value 0 does not
contribute the numeric value 0; the value field is falsy, so the ||
fallback hands the drawing routines the record object itself. -/
theorem c3_entryValue_zero_record :
    entryValue (.record (some "a") 0) = .obj (.record (some "a") 0) ∧
    entryValue (.record (some "a") 0) ≠ .num 0 := by
  decide

/-- Claim C3 (amended): the numeric value used by the drawing routines is
the bare number itself for a bare-number entry and the value field for a
record entry with nonzero value; a record whose value field is 0 (falsy)
yields the record object instead, not the number 0. -/
theorem c3_entryValue_characterization :
    (∀ n : ℚ, entryValue (.bare n) = .num n) ∧
    (∀ l v, v ≠ 0 → entryValue (.record l v) = .num v) ∧
    (∀ l, entryValue (.record l 0) = .obj (.record l 0)) := by
  refine ⟨fun n => rfl, fun l v hv => ?_, fun l => ?_⟩
  · simp [entryValue, hv]
  · simp [entryValue]

/-- Witness for the amended claim C3 at a concrete record entry. -/
theorem c3_entryValue_characterization_witness :
    entryValue (.record (some "x") 45) = .num 45 :=
  c3_entryValue_characterization.2.1 (some "x") 45 (by norm_num)

/-- Claim C4: getColor in series mode and in individual mode are the same
function of palette and index, and on a non-empty palette both return the
palette entry at index modulo palette length. -/
theorem c4_getColor_series_eq_individual :
    (∀ (colors : List String) (i : ℕ),
      getColor colors i "series" = getColor colors i "individual") ∧
    (∀ (colors : List String) (i : ℕ), colors ≠ [] →
      getColor colors i "series" = some (.str (colors.getD (i % colors.length) ""))) := by
  constructor
  · intro colors i
    rfl
  · intro colors i h
    have hlen : 0 < colors.length := List.length_pos.mpr h
    have hm : i % colors.length < colors.length := Nat.mod_lt _ hlen
    simp [getColor, List.getD, List.get?_eq_getElem?, List.getElem?_eq_getElem hm]

/-- Witness for claim C4 on a concrete two-color palette at index 3. -/
theorem c4_getColor_series_eq_individual_witness :
    getColor ["#667eea", "#764ba2"] 3 "series" = some (.str "#764ba2") :=
  (c4_getColor_series_eq_individual.2 ["#667eea", "#764ba2"] 3 (by decide)).trans (by decide)

/-- Every hex digit parses to a value below 16. -/
theorem hexVal_le_fifteen (c : Char) : hexVal c ≤ 15 := by
  unfold hexVal
  split_ifs <;> omega

/-- A successfully parsed hex body has every channel inside [0, 255]. -/
theorem parseBody_bounds {cs : List Char} {c : RGB} (h : parseBody cs = some c) :
    0 ≤ c.r ∧ c.r ≤ 255 ∧ 0 ≤ c.g ∧ c.g ≤ 255 ∧ 0 ≤ c.b ∧ c.b ≤ 255 := by
  unfold parseBody at h
  split_ifs at h
  injection h with h
  subst h
  have h0 := hexVal_le_fifteen (cs.getD 0 ' ')
  have h1 := hexVal_le_fifteen (cs.getD 1 ' ')
  have h2 := hexVal_le_fifteen (cs.getD 2 ' ')
  have h3 := hexVal_le_fifteen (cs.getD 3 ' ')
  have h4 := hexVal_le_fifteen (cs.getD 4 ' ')
  have h5 := hexVal_le_fifteen (cs.getD 5 ' ')
  refine ⟨?_, ?_, ?_, ?_, ?_, ?_⟩ <;> dsimp only <;> omega

/-- hexToRgb always produces channels inside [0, 255] (a parsed body by
the digit bounds, a rejected input because black is returned). -/
theorem hexToRgb_bounds (s : String) :
    0 ≤ (hexToRgb s).r ∧ (hexToRgb s).r ≤ 255 ∧ 0 ≤ (hexToRgb s).g ∧
    (hexToRgb s).g ≤ 255 ∧ 0 ≤ (hexToRgb s).b ∧ (hexToRgb s).b ≤ 255 := by
  unfold hexToRgb
  cases h : parseBody (stripHash s.data) with
  | none => norm_num
  | some c => simpa using parseBody_bounds h

/-- Math.round is the identity on integers. -/
theorem jsRound_int (c : ℤ) : jsRound (c : ℚ) = c := by
  unfold jsRound
  rw [Int.floor_int_add]
  norm_num

/-- Clamping to [0, 255] is the identity inside the interval. -/
theorem clamp255_id {n : ℤ} (h0 : 0 ≤ n) (h255 : n ≤ 255) : clamp255 n = n := by
  unfold clamp255
  omega

/-- Claim C5: shade mode scales each channel of the first palette color
by the factor 1 - 0.15 * i, rounds, and clamps to [0, 255]; at index 0
the parsed base color is returned unchanged. -/
theorem c5_getColor_shade :
    (∀ colors : List String,
      getColor colors 0 "shade" = some (.rgbVal (hexToRgb colors.headI))) ∧
    (∀ (colors : List String) (i : ℕ),
      getColor colors i "shade" =
        some (.rgbVal
          ⟨clamp255 (jsRound (((hexToRgb colors.headI).r : ℚ) * (1 - (15 / 100) * i))),
           clamp255 (jsRound (((hexToRgb colors.headI).g : ℚ) * (1 - (15 / 100) * i))),
           clamp255 (jsRound (((hexToRgb colors.headI).b : ℚ) * (1 - (15 / 100) * i)))⟩)) := by
  constructor
  · intro colors
    obtain ⟨h1, h2, h3, h4, h5, h6⟩ := hexToRgb_bounds colors.headI
    simp only [getColor, adjustBrightness]
    norm_num
    rw [jsRound_int, jsRound_int, jsRound_int, clamp255_id h1 h2, clamp255_id h3 h4,
      clamp255_id h5 h6, if_neg (by decide : ¬("shade" : String) = "individual")]
  · intro colors i
    simp [getColor, adjustBrightness, mul_comm]

/-- The reduce step of cumulative, run from an accumulator whose last
element is known, appends running totals based on that element. -/
theorem foldl_cumulative_step (vs : List ℚ) :
    ∀ (acc : List ℚ) (L : ℚ), acc.getLast? = some L →
      vs.foldl (fun acc val => acc ++ [acc.getLast?.elim val (· + val)]) acc =
        acc ++ cumulFrom L vs := by
  induction vs with
  | nil =>
    intro acc L _
    simp [cumulFrom]
  | cons v vs ih =>
    intro acc L h
    rw [List.foldl_cons]
    have hstep : acc ++ [acc.getLast?.elim v (· + v)] = acc ++ [L + v] := by
      rw [h]
      rfl
    rw [hstep, ih (acc ++ [L + v]) (L + v) (by simp), cumulFrom]
    simp

/-- The cumulative array equals the running totals started at 0. -/
theorem cumulative_eq_cumulFrom (vs : List ℚ) : cumulative vs = cumulFrom 0 vs := by
  cases vs with
  | nil => rfl
  | cons v vs =>
    show List.foldl _ [v] vs = _
    rw [foldl_cumulative_step vs [v] v rfl, cumulFrom]
    simp [zero_add]

/-- Element k of the running totals from a base is the base plus the sum
of the first k + 1 values. -/
theorem cumulFrom_getD (vs : List ℚ) :
    ∀ (base : ℚ) (k : ℕ), k < vs.length →
      (cumulFrom base vs).getD k 0 = base + (vs.take (k + 1)).sum := by
  induction vs with
  | nil =>
    intro base k h
    simp at h
  | cons v vs ih =>
    intro base k h
    cases k with
    | zero => simp [cumulFrom]
    | succ k =>
      rw [cumulFrom]
      rw [List.getD_cons_succ]
      rw [ih (base + v) k (by simpa using h)]
      simp [add_assoc]

/-- A min-fold stays below its initial value. -/
theorem foldl_min_le_init (l : List ℚ) : ∀ a : ℚ, l.foldl min a ≤ a := by
  induction l with
  | nil => intro a; simp
  | cons x xs ih =>
    intro a
    calc xs.foldl min (min a x) ≤ min a x := ih (min a x)
    _ ≤ a := min_le_left a x

/-- A min-fold stays below every element of the list. -/
theorem foldl_min_le_mem (l : List ℚ) : ∀ (a c : ℚ), c ∈ l → l.foldl min a ≤ c := by
  induction l with
  | nil =>
    intro a c hc
    simp at hc
  | cons x xs ih =>
    intro a c hc
    rw [List.foldl_cons]
    rcases List.mem_cons.mp hc with h | h
    · subst h
      calc xs.foldl min (min a c) ≤ min a c := foldl_min_le_init xs (min a c)
      _ ≤ c := min_le_right a c
    · exact ih (min a x) c h

/-- A max-fold stays above its initial value. -/
theorem foldl_max_init_le (l : List ℚ) : ∀ a : ℚ, a ≤ l.foldl max a := by
  induction l with
  | nil => intro a; simp
  | cons x xs ih =>
    intro a
    calc a ≤ max a x := le_max_left a x
    _ ≤ xs.foldl max (max a x) := ih (max a x)

/-- A max-fold stays above every element of the list. -/
theorem foldl_max_mem_le (l : List ℚ) : ∀ (a c : ℚ), c ∈ l → c ≤ l.foldl max a := by
  induction l with
  | nil =>
    intro a c hc
    simp at hc
  | cons x xs ih =>
    intro a c hc
    rw [List.foldl_cons]
    rcases List.mem_cons.mp hc with h | h
    · subst h
      calc c ≤ max a c := le_max_right a c
      _ ≤ xs.foldl max (max a c) := foldl_max_init_le xs (max a c)
    · exact ih (max a x) c h

/-- The cumulative array of a non-empty value list is non-empty. -/
theorem cumulative_ne_nil {vs : List ℚ} (h : vs ≠ []) : cumulative vs ≠ [] := by
  cases vs with
  | nil => exact absurd rfl h
  | cons v vs =>
    rw [cumulative_eq_cumulFrom, cumulFrom]
    exact List.cons_ne_nil _ _

/-- Claim C6: mapping the waterfall value extraction over bare numbers
gives exactly those numbers; the cumulative sequence at position k is the
sum of the first k + 1 signed values; and for a non-empty sequence the
normalization range [waterfallMin, waterfallMax] contains the implicit
zero baseline together with every cumulative value below the maximum. -/
theorem c6_waterfall_cumulative :
    (∀ vs : List ℚ, waterfallValues (vs.map Entry.bare) = vs.map JsVal.num) ∧
    (∀ (vs : List ℚ) (k : ℕ), k < vs.length →
      (cumulative vs).getD k 0 = (vs.take (k + 1)).sum) ∧
    (∀ vs : List ℚ, vs ≠ [] →
      waterfallMin vs ≤ 0 ∧
      ∀ c ∈ cumulative vs, waterfallMin vs ≤ c ∧ c ≤ waterfallMax vs) := by
  refine ⟨fun vs => ?_, fun vs k h => ?_, fun vs h => ?_⟩
  · simp [waterfallValues, entryValue, List.map_map]
  · rw [cumulative_eq_cumulFrom, cumulFrom_getD vs 0 k h, zero_add]
  · refine ⟨foldl_min_le_init (cumulative vs) 0, fun c hc => ?_⟩
    refine ⟨foldl_min_le_mem (cumulative vs) 0 c hc, ?_⟩
    unfold waterfallMax
    cases hcum : cumulative vs with
    | nil => exact absurd hcum (cumulative_ne_nil h)
    | cons c0 cs =>
      rw [hcum] at hc
      rcases List.mem_cons.mp hc with h0 | h0
      · subst h0
        exact foldl_max_init_le cs c
      · exact foldl_max_mem_le cs c0 c h0

/-- Witness for claim C6 on the concrete signed sequence 3, -5, 4. -/
theorem c6_waterfall_cumulative_witness :
    (cumulative [3, -5, 4] : List ℚ).getD 1 0 = (([3, -5, 4] : List ℚ).take 2).sum ∧
    waterfallMin [3, -5, 4] ≤ 0 :=
  ⟨c6_waterfall_cumulative.2.1 [3, -5, 4] 1 (by norm_num),
   (c6_waterfall_cumulative.2.2 [3, -5, 4] (by simp)).1⟩

/-- Claim C7: reconfiguring with theme dark after construction with theme
lite replaces background, text and grid colors with the dark set, and the
resolution follows the precedence custom theme over explicit non-default
color over theme-table lookup over the built-in dark fallback. -/
theorem c7_theme_switch :
    ((updateTheme (applyTheme { defaultOptions with theme := "lite" }) "dark").backgroundColor
        = "#1a1a2e" ∧
      (updateTheme (applyTheme { defaultOptions with theme := "lite" }) "dark").textColor
        = "#eee" ∧
      (updateTheme (applyTheme { defaultOptions with theme := "lite" }) "dark").gridColor
        = some "#2a2a3e") ∧
    (∀ (o : Options) (ct : CustomTheme), o.customTheme = some ct →
      (applyTheme o).backgroundColor = jsOrStr ct.backgroundColor o.backgroundColor ∧
      (applyTheme o).textColor = jsOrStr ct.textColor o.textColor ∧
      (applyTheme o).gridColor = some (jsOrStr ct.gridColor "rgba(128, 128, 128, 0.2)")) ∧
    (∀ o : Options, o.customTheme = none →
      ¬(o.backgroundColor = "" ∨ o.backgroundColor = "#ffffff") →
      (applyTheme o).backgroundColor = o.backgroundColor) ∧
    (∀ o : Options, o.customTheme = none →
      ¬(o.textColor = "" ∨ o.textColor = "#333333") →
      (applyTheme o).textColor = o.textColor) ∧
    (∀ o : Options, o.customTheme = none → themeTable o.theme = none →
      (applyTheme o).gridColor = some "#2a2a3e") := by
  refine ⟨⟨rfl, rfl, rfl⟩, fun o ct h => ?_, fun o h hbg => ?_, fun o h htx => ?_,
    fun o h htb => ?_⟩
  · simp [applyTheme, h]
  · simp [applyTheme, h, hbg]
  · simp [applyTheme, h, htx]
  · simp [applyTheme, h, htb]

/-- Witness for claim C7: each precedence step applied at a concrete
options record. -/
theorem c7_theme_switch_witness :
    (applyTheme { defaultOptions with
        customTheme := some ⟨some "teal", none, none⟩ }).backgroundColor = "teal" ∧
    (applyTheme { defaultOptions with backgroundColor := "#123456" }).backgroundColor
      = "#123456" ∧
    (applyTheme { defaultOptions with textColor := "#654321" }).textColor = "#654321" ∧
    (applyTheme { defaultOptions with theme := "mystery" }).gridColor = some "#2a2a3e" :=
  ⟨((c7_theme_switch.2.1 _ ⟨some "teal", none, none⟩ rfl).1).trans rfl,
   c7_theme_switch.2.2.1 _ rfl (by decide),
   c7_theme_switch.2.2.2.1 _ rfl (by decide),
   c7_theme_switch.2.2.2.2 _ rfl rfl⟩

/-- An entry whose extracted value is numeric contributes exactly its
numeric field (or itself when bare). -/
theorem entryValue_of_num {e : Entry} (h : ∃ q : ℚ, entryValue e = .num q) :
    entryValue e = .num (entryNumber e) := by
  cases e with
  | bare n => rfl
  | record l v =>
    by_cases hv : v = 0
    · subst hv
      obtain ⟨q, hq⟩ := h
      simp [entryValue] at hq
    · simp [entryValue, entryNumber, hv]

/-- The donut reduce, started from any numeric accumulator over entries
with numeric values, adds up all their numeric fields. -/
theorem donutTotal_go (data : List Entry) :
    ∀ a : ℚ, (∀ e ∈ data, ∃ q : ℚ, entryValue e = .num q) →
      data.foldl (fun s e => jsAdd s (entryValue e)) (.num a) =
        .num (a + (data.map entryNumber).sum) := by
  induction data with
  | nil =>
    intro a _
    simp
  | cons e es ih =>
    intro a h
    rw [List.foldl_cons, entryValue_of_num (h e (List.mem_cons_self e es)),
      show jsAdd (.num a) (.num (entryNumber e)) = .num (a + entryNumber e) from rfl,
      ih (a + entryNumber e) (fun e' he' => h e' (List.mem_cons_of_mem _ he'))]
    simp [add_assoc]

/-- Claim C8 (counterexample): the data [{value:0},{value:100}] is
non-empty and its input values have the positive total 100, yet the donut
center label is not that sum: the zero-value record is extracted as the
record object, the reduce string-concatenates it, and the resulting label
is non-numeric. -/
theorem c8_donut_zero_record_not_sum :
    [Entry.record (some "a") 0, Entry.record (some "b") 100] ≠ [] ∧
    0 < (List.map entryNumber
          [Entry.record (some "a") 0, Entry.record (some "b") 100]).sum ∧
    donutCenterLabel [Entry.record (some "a") 0, Entry.record (some "b") 100]
      = JsVal.nonNum ∧
    donutCenterLabel [Entry.record (some "a") 0, Entry.record (some "b") 100]
      ≠ JsVal.num ((List.map entryNumber
          [Entry.record (some "a") 0, Entry.record (some "b") 100]).sum) := by
  refine ⟨by simp, by norm_num [entryNumber], rfl, ?_⟩
  intro h
  rw [show donutCenterLabel [Entry.record (some "a") 0, Entry.record (some "b") 100]
      = JsVal.nonNum from rfl] at h
  exact JsVal.noConfusion h

/-- Claim C8 (amended): for a non-empty data sequence with positive total
whose entries all expose a numeric extracted value (bare numbers, or
records with nonzero value field), the donut center label is exactly the
sum of the entry values; a record with a zero value field instead makes
the reduce concatenate the object and the label is non-numeric. -/
theorem c8_donut_center_label (data : List Entry) (_hne : data ≠ [])
    (hnum : ∀ e ∈ data, ∃ q : ℚ, entryValue e = .num q)
    (_hpos : 0 < (data.map entryNumber).sum) :
    donutCenterLabel data = .num ((data.map entryNumber).sum) := by
  unfold donutCenterLabel donutTotal
  rw [donutTotal_go data 0 hnum, zero_add]

/-- Witness for claim C8 at the spec scenario 45, 35, 20: center text is
the number 100. -/
theorem c8_donut_center_label_witness :
    donutCenterLabel [.record (some "A") 45, .record (some "B") 35, .record (some "C") 20]
      = .num 100 := by
  have h := c8_donut_center_label
    [.record (some "A") 45, .record (some "B") 35, .record (some "C") 20]
    (by simp)
    (by
      intro e he
      simp at he
      rcases he with rfl | rfl | rfl
      · exact ⟨45, rfl⟩
      · exact ⟨35, rfl⟩
      · exact ⟨20, rfl⟩)
    (by norm_num [entryNumber])
  have hsum :
      (List.map entryNumber
        [Entry.record (some "A") 45, Entry.record (some "B") 35, Entry.record (some "C") 20]).sum
        = (100 : ℚ) := by
    norm_num [entryNumber]
  rw [hsum] at h
  exact h

/-- Each value below 16 encodes to a character inside the hex-digit class
that parses back to the same value. -/
theorem toHexChar_ok :
    ∀ d : Fin 16, isHexDigit (toHexChar d.val) = true ∧ hexVal (toHexChar d.val) = d.val := by
  decide

/-- The two characters encoding a channel value below 256 are hex digits
and parse back to that value. -/
theorem toHexPair_ok (n : ℕ) (h : n ≤ 255) :
    isHexDigit (toHexChar (n / 16)) = true ∧ isHexDigit (toHexChar (n % 16)) = true ∧
    16 * hexVal (toHexChar (n / 16)) + hexVal (toHexChar (n % 16)) = n := by
  have h1 : n / 16 < 16 := by omega
  have h2 : n % 16 < 16 := Nat.mod_lt _ (by norm_num)
  obtain ⟨a1, a2⟩ := toHexChar_ok ⟨n / 16, h1⟩
  obtain ⟨b1, b2⟩ := toHexChar_ok ⟨n % 16, h2⟩
  have a2' : hexVal (toHexChar (n / 16)) = n / 16 := a2
  have b2' : hexVal (toHexChar (n % 16)) = n % 16 := b2
  refine ⟨a1, b1, ?_⟩
  rw [a2', b2']
  omega

/-- parseBody on an explicit list of six hex digits succeeds, reading the
three channel pairs with radix 16. -/
theorem parseBody_six (a b c d e f : Char) (ha : isHexDigit a = true)
    (hb : isHexDigit b = true) (hc : isHexDigit c = true) (hd : isHexDigit d = true)
    (he : isHexDigit e = true) (hf : isHexDigit f = true) :
    parseBody [a, b, c, d, e, f] =
      some ⟨(16 * hexVal a + hexVal b : ℕ), (16 * hexVal c + hexVal d : ℕ),
        (16 * hexVal e + hexVal f : ℕ)⟩ := by
  unfold parseBody
  rw [if_pos]
  · rfl
  · exact ⟨rfl, by simp [ha, hb, hc, hd, he, hf]⟩

/-- The canonical hex encoding of an in-range RGB triple parses back to
the same triple. -/
theorem parseBody_rgbToHex (c : RGB) (hr0 : 0 ≤ c.r) (hr : c.r ≤ 255) (hg0 : 0 ≤ c.g)
    (hg : c.g ≤ 255) (hb0 : 0 ≤ c.b) (hb : c.b ≤ 255) :
    parseBody (stripHash (rgbToHex c).data) = some c := by
  have hrn : c.r.toNat ≤ 255 := by omega
  have hgn : c.g.toNat ≤ 255 := by omega
  have hbn : c.b.toNat ≤ 255 := by omega
  obtain ⟨r1, r2, r3⟩ := toHexPair_ok c.r.toNat hrn
  obtain ⟨g1, g2, g3⟩ := toHexPair_ok c.g.toNat hgn
  obtain ⟨b1, b2, b3⟩ := toHexPair_ok c.b.toNat hbn
  show parseBody
      [toHexChar (c.r.toNat / 16), toHexChar (c.r.toNat % 16),
       toHexChar (c.g.toNat / 16), toHexChar (c.g.toNat % 16),
       toHexChar (c.b.toNat / 16), toHexChar (c.b.toNat % 16)] = some c
  rw [parseBody_six _ _ _ _ _ _ r1 r2 g1 g2 b1 b2]
  refine congrArg some ?_
  rw [r3, g3, b3, Int.toNat_of_nonneg hr0, Int.toNat_of_nonneg hg0, Int.toNat_of_nonneg hb0]

/-- Claim C9: parsing any string and re-encoding the result as hex
round-trips to the same color, and every input rejected by the 6-digit
hex pattern yields black. -/
theorem c9_hexToRgb_roundtrip :
    (∀ s : String, hexToRgb (rgbToHex (hexToRgb s)) = hexToRgb s) ∧
    (∀ s : String, parseBody (stripHash s.data) = none → hexToRgb s = ⟨0, 0, 0⟩) := by
  constructor
  · intro s
    obtain ⟨h1, h2, h3, h4, h5, h6⟩ := hexToRgb_bounds s
    conv_lhs => rw [hexToRgb]
    rw [parseBody_rgbToHex (hexToRgb s) h1 h2 h3 h4 h5 h6]
    rfl
  · intro s h
    unfold hexToRgb
    rw [h]
    rfl

/-- Witness for claim C9: a non-hex input parses to black. -/
theorem c9_hexToRgb_roundtrip_witness : hexToRgb "nope" = ⟨0, 0, 0⟩ :=
  c9_hexToRgb_roundtrip.2 "nope" rfl

/-- Claim C10: construction succeeds exactly when the container id is in
the document, and the observable error happens exactly when it is not:
the missing container is the only signaled failure. -/
theorem c10_construct_fails_iff (containerId : String) (documentIds : List String) :
    (construct containerId documentIds = Except.ok () ↔ containerId ∈ documentIds) ∧
    ((∃ msg, construct containerId documentIds = Except.error msg) ↔
      containerId ∉ documentIds) := by
  unfold construct
  by_cases h : containerId ∈ documentIds
  · simp [h]
  · simp [h]

end VibeCharts
